import Mathlib

/-!
Shallow embedding of `@graphile/persisted-operations` (src/index.ts).

JavaScript values relevant to the library are modelled explicitly:
`undefined`, `null` and strings as `JSValue`; optional object keys where
the distinction between a missing key and a key set to `undefined` matters
(it matters for `Object.keys`) as `JSField`; computations that may throw
as `Except JSError`.  Stateful pieces (the Directory Strategy cache and
known-file snapshot) are modelled by explicit state passing, and the
number of synchronous filesystem reads performed by a lookup is returned
alongside the result so that claims about "no filesystem access" are
statable.
-/

namespace PersistedOperations

/-- A JavaScript value as far as this library observes them:
`null`, `undefined`, or a string.  (`typeof v === "string"` holds exactly
for `strV`.) -/
inductive JSValue where
  | nullV : JSValue
  | undefV : JSValue
  | strV : String → JSValue
deriving DecidableEq, Repr

/-- The `typeof v === "string"` test used by the orchestrator. -/
def JSValue.isString : JSValue → Bool
  | .strV _ => true
  | _ => false

/-- JavaScript truthiness restricted to the values we model: `null` and
`undefined` are falsy, a string is truthy iff it is non-empty. -/
def JSValue.truthy : JSValue → Bool
  | .strV s => s != ""
  | _ => false

/-- Lift an optional string (result of optional chaining on a payload
field) to the JavaScript value it denotes: a missing field reads as
`undefined`. -/
def jsOfStrOpt : Option String → JSValue
  | none => .undefV
  | some s => .strV s

/-- A key of a JavaScript object: missing, present-but-`undefined`, or
present with a value.  `Object.keys` sees the latter two, truthiness only
the last. -/
inductive JSField (α : Type) where
  | absent : JSField α
  | undef : JSField α
  | val : α → JSField α

/-- Whether the key is present on the object (counted by `Object.keys`). -/
def JSField.isPresent {α : Type} : JSField α → Bool
  | .absent => false
  | _ => true

/-- Whether the key is present with a defined value. -/
def JSField.isVal {α : Type} : JSField α → Bool
  | .val _ => true
  | _ => false

/-- Whether the key is present but explicitly set to `undefined`. -/
def JSField.isUndef {α : Type} : JSField α → Bool
  | .undef => true
  | _ => false

/-- The exceptions the library can throw, named after the error taxonomy.
`userThrown` stands for an arbitrary exception escaping caller-supplied
code; `fileReadError` for `readFileSync` failing. -/
inductive JSError where
  | invalidHash : JSError
  | unknownHash : String → JSError
  | fileReadError : String → JSError
  | configurationConflict : List String → JSError
  | notConfigured : JSError
  | noHashFound : JSError
  | userThrown : String → JSError
deriving DecidableEq, Repr

/-- The `query` field of a payload: a string or a `DocumentNode` object
(whose structure the library never inspects). -/
inductive JSQuery where
  | qstr : String → JSQuery
  | qdoc : JSQuery
deriving DecidableEq, Repr

/-- The `extensions.persistedQuery` object (Apollo protocol). -/
structure PersistedQueryExt where
  sha256Hash : Option String
deriving DecidableEq, Repr

/-- The `extensions` object of a request payload. -/
structure PayloadExtensions where
  persistedQuery : Option PersistedQueryExt
deriving DecidableEq, Repr

/-- The `RequestPayload` interface from src/index.ts.  Optional keys are
`Option`s: for payload fields the code only ever uses optional chaining
and truthiness, for which a missing key and an `undefined` value agree. -/
structure RequestPayload where
  extensions : Option PayloadExtensions
  documentId : Option String
  id : Option String
  query : Option JSQuery
  operationName : Option String
deriving DecidableEq, Repr

/-- The chain `payload?.extensions?.persistedQuery?.sha256Hash`. -/
def shaFromPayload (p : RequestPayload) : Option String :=
  (p.extensions.bind (fun e => e.persistedQuery)).bind (fun q => q.sha256Hash)

/-- The JavaScript `a || b` on the modelled values. -/
def jsOr (a b : JSValue) : JSValue :=
  if a.truthy then a else b

/-- `defaultHashFromPayload` from src/index.ts: the Apollo-style
`extensions.persistedQuery.sha256Hash` chain, `||`-combined with the
Relay-style `documentId`. -/
def defaultHashFromPayload (p : RequestPayload) : JSValue :=
  jsOr (jsOfStrOpt (shaFromPayload p)) (jsOfStrOpt p.documentId)

/-- `typeof payload?.query === "string"`. -/
def queryIsString : Option JSQuery → Bool
  | some (.qstr _) => true
  | _ => false

/-! ### Directory Strategy (`makeGetterForDirectory`) -/

/-- One character of the hash-validation regex class `[a-zA-Z0-9_-]`. -/
def validHashChar (c : Char) : Bool :=
  (('a' ≤ c && c ≤ 'z') || ('A' ≤ c && c ≤ 'Z') || ('0' ≤ c && c ≤ '9')
    || c == '_' || c == '-')

/-- The test `/^[a-zA-Z0-9_-]+$/.test(hash)`: non-empty and every
character in the allowed class. -/
def validHash (s : String) : Bool :=
  !s.isEmpty && s.toList.all validHashChar

/-- JavaScript truthiness of `operationFromHash.get(hash)`: `undefined`
(a cache miss) and the empty string are both falsy. -/
def jsTruthyOpt : Option String → Bool
  | none => false
  | some s => s != ""

/-- The mutable state captured by one `makeGetterForDirectory` closure:
the known-filenames snapshot `files` and the `operationFromHash` content
cache (modelled as an association list where the most recent `set` is at
the head). -/
structure DirState where
  files : List String
  cache : List (String × String)
deriving DecidableEq, Repr

/-- State at closure creation: no scan has completed yet, nothing cached. -/
def initialDirState : DirState := { files := [], cache := [] }

/-- The result of one `getOperationFromHash` call: the returned string or
the thrown error, the state after the call, and how many synchronous
filesystem reads (`readFileSync` calls) were issued. -/
structure DirLookupResult where
  result : Except JSError String
  state : DirState
  fsReads : Nat

/-- One iteration of `scanDirectory`: on a successful `readdir`, replace
the snapshot with the names ending in `.graphql`; on failure, log and
keep the previous snapshot. -/
def scanDirectory (listing : Except Unit (List String)) (st : DirState) : DirState :=
  match listing with
  | .error _ => st
  | .ok names => { st with files := names.filter (fun n => n.endsWith ".graphql") }

/-- `getOperationFromHash` from src/index.ts, with the filesystem
modelled as a map from filename to content (`none` makes `readFileSync`
throw).  Steps, in source order: reject hashes failing the regex; consult
the cache (a falsy cached value, i.e. a miss or the empty string, falls
through); require the filename in the snapshot; only then read the file
and cache the content. -/
def getOperationFromHash (fs : String → Option String) (st : DirState)
    (hash : String) : DirLookupResult :=
  if !validHash hash then
    { result := .error .invalidHash, state := st, fsReads := 0 }
  else
    let cached := st.cache.lookup hash
    if jsTruthyOpt cached then
      { result := .ok (cached.getD ""), state := st, fsReads := 0 }
    else
      let filename := hash ++ ".graphql"
      if !(st.files.contains filename) then
        { result := .error (.unknownHash hash), state := st, fsReads := 0 }
      else
        match fs filename with
        | none =>
            { result := .error (.fileReadError filename), state := st, fsReads := 1 }
        | some content =>
            { result := .ok content,
              state := { st with cache := (hash, content) :: st.cache },
              fsReads := 1 }

/-! ### Strategy resolution (`getterFromOptionsCore`) and the orchestrator -/

/-- The `PersistedOperationGetter` type: a getter may throw, and may
return a non-string JavaScript value (the static-map getter returns
`undefined` on a miss). -/
def Getter : Type := String → Except JSError JSValue

/-- A caller-supplied `hashFromPayload` override: may throw and may
return any value (the orchestrator checks `typeof`). -/
def HashExtractor : Type := RequestPayload → Except JSError JSValue

/-- The `PostGraphileOptions` keys the library reads.  The three
lookup-strategy keys are `JSField`s because `getterFromOptionsCore`
counts them through `Object.keys`, for which a key set to `undefined` is
still present. -/
structure PGOptions where
  hashFromPayload : Option HashExtractor
  persistedOperationsDirectory : JSField String
  persistedOperations : JSField (List (String × String))
  persistedOperationsGetter : JSField Getter
  allowUnpersistedOperation : JSField Bool

/-- The filter of `Object.keys(options)` down to the three strategy keys.
JavaScript would order these by insertion order of the caller object,
which a record cannot capture; the claims never inspect the order, so a
fixed order is used. -/
def strategyKeysSpecified (o : PGOptions) : List String :=
  (if o.persistedOperationsGetter.isPresent then ["persistedOperationsGetter"] else [])
    ++ (if o.persistedOperationsDirectory.isPresent
        then ["persistedOperationsDirectory"] else [])
    ++ (if o.persistedOperations.isPresent then ["persistedOperations"] else [])

/-- `persistedOperationGetterForCache`: `(key) => cache[key]`, where a
missing key reads as `undefined` (never a throw). -/
def persistedOperationGetterForCache (cache : List (String × String)) : Getter :=
  fun key => .ok (jsOfStrOpt (cache.lookup key))

/-- The ambient behaviour of `getterForDirectory`: what getter the
process-wide per-directory registry yields for a given path.  The
orchestrator-level claims hold for every such behaviour, so it is a
parameter; `getOperationFromHash` above is its concrete realisation for
one directory. -/
structure DirEnv where
  dirGetter : String → Getter

/-- `getterFromOptionsCore` from src/index.ts: count the strategy keys
present on the options object and throw a configuration-conflict error
when more than one is present; otherwise take the first truthy strategy
in source order (getter, static map, directory — an empty-string
directory is falsy) and throw the misconfiguration error when none is. -/
def getterFromOptionsCore (env : DirEnv) (o : PGOptions) : Except JSError Getter :=
  let specified := strategyKeysSpecified o
  if specified.length > 1 then
    .error (.configurationConflict specified)
  else
    match o.persistedOperationsGetter with
    | .val g => .ok g
    | _ =>
      match o.persistedOperations with
      | .val m => .ok (persistedOperationGetterForCache m)
      | _ =>
        match o.persistedOperationsDirectory with
        | .val d => if d != "" then .ok (env.dirGetter d) else .error .notConfigured
        | _ => .error .notConfigured

/-- `getterFromOptions` memoizes `getterFromOptionsCore` in a `Map`
keyed by options-object identity; the memoized value is the getter the
core produced on first call, so observationally it is the core. -/
def getterFromOptions (env : DirEnv) (o : PGOptions) : Except JSError Getter :=
  getterFromOptionsCore env o

/-- `options.hashFromPayload || defaultHashFromPayload` (a supplied
function is always truthy). -/
def effectiveHashFromPayload (o : PGOptions) : HashExtractor :=
  match o.hashFromPayload with
  | some f => f
  | none => fun p => .ok (defaultHashFromPayload p)

/-- The body of the `try` block of `persistedOperationFromPayload`:
extract the hash; on a non-string hash either return the literal query
string (when the bypass is allowed and `typeof payload?.query` is a
string) or throw; on a string hash resolve the getter and invoke it. -/
def persistedOperationAttempt (env : DirEnv) (payload : RequestPayload)
    (o : PGOptions) (allowUnpersisted : Bool) : Except JSError JSValue := do
  let hash ← effectiveHashFromPayload o payload
  match hash with
  | .strV h => do
      let getter ← getterFromOptions env o
      getter h
  | _ =>
      match allowUnpersisted, payload.query with
      | true, some (.qstr q) => .ok (.strV q)
      | _, _ => .error .noHashFound

/-- `persistedOperationFromPayload` from src/index.ts: the attempt above
wrapped in `try/catch`, any thrown error logged and converted to `null`. -/
def persistedOperationFromPayload (env : DirEnv) (payload : RequestPayload)
    (o : PGOptions) (allowUnpersisted : Bool) : JSValue :=
  match persistedOperationAttempt env payload o allowUnpersisted with
  | .ok v => v
  | .error _ => .nullV

/-- The `cli:library:options` hook: destructure
`persistedOperationsDirectory` and `allowUnpersistedOperations` (default
`undefined`) out of the merged config/CLI options, then spread them onto
the library options.  The object literal always carries both keys, so on
the result they are `undef` at the weakest, never absent.  The arguments
`mergedDirectory` and `mergedAllow` are the merged values when defined. -/
def cliLibraryOptions (options : PGOptions) (mergedDirectory : Option String)
    (mergedAllow : Option Bool) : PGOptions :=
  { options with
    persistedOperationsDirectory :=
      match mergedDirectory with
      | some d => .val d
      | none => .undef,
    allowUnpersistedOperation :=
      match mergedAllow with
      | some b => .val b
      | none => .undef }

/-! ### Branch equations for `getOperationFromHash` -/

/-- Invalid hash: rejected before consulting cache, snapshot or disk. -/
theorem dir_invalid (fs : String → Option String) (st : DirState) (hash : String)
    (h : validHash hash = false) :
    getOperationFromHash fs st hash =
      { result := .error .invalidHash, state := st, fsReads := 0 } := by
  simp [getOperationFromHash, h]

/-- Truthy cache hit: the cached content is returned with no reads. -/
theorem dir_cache_hit (fs : String → Option String) (st : DirState) (hash s : String)
    (hv : validHash hash = true) (hc : st.cache.lookup hash = some s)
    (hs : ¬s = "") :
    getOperationFromHash fs st hash =
      { result := .ok s, state := st, fsReads := 0 } := by
  simp [getOperationFromHash, hv, hc, jsTruthyOpt, hs]

/-- No usable cache entry and filename missing from the snapshot:
the unknown-hash error, with no reads. -/
theorem dir_unknown (fs : String → Option String) (st : DirState) (hash : String)
    (hv : validHash hash = true)
    (hc : jsTruthyOpt (st.cache.lookup hash) = false)
    (hf : st.files.contains (hash ++ ".graphql") = false) :
    getOperationFromHash fs st hash =
      { result := .error (.unknownHash hash), state := st, fsReads := 0 } := by
  have hf2 : ¬(hash ++ ".graphql") ∈ st.files := by simpa using hf
  simp [getOperationFromHash, hv, hc, hf2]

/-- No usable cache entry, filename in the snapshot, read succeeds:
content returned and cached, one read. -/
theorem dir_fresh_read (fs : String → Option String) (st : DirState)
    (hash content : String) (hv : validHash hash = true)
    (hc : jsTruthyOpt (st.cache.lookup hash) = false)
    (hf : st.files.contains (hash ++ ".graphql") = true)
    (hr : fs (hash ++ ".graphql") = some content) :
    getOperationFromHash fs st hash =
      { result := .ok content,
        state := { files := st.files, cache := (hash, content) :: st.cache },
        fsReads := 1 } := by
  have hf2 : (hash ++ ".graphql") ∈ st.files := by simpa using hf
  simp [getOperationFromHash, hv, hc, hf2, hr]

/-- No usable cache entry, filename in the snapshot, read throws. -/
theorem dir_read_fail (fs : String → Option String) (st : DirState) (hash : String)
    (hv : validHash hash = true)
    (hc : jsTruthyOpt (st.cache.lookup hash) = false)
    (hf : st.files.contains (hash ++ ".graphql") = true)
    (hr : fs (hash ++ ".graphql") = none) :
    getOperationFromHash fs st hash =
      { result := .error (.fileReadError (hash ++ ".graphql")), state := st, fsReads := 1 } := by
  have hf2 : (hash ++ ".graphql") ∈ st.files := by simpa using hf
  simp [getOperationFromHash, hv, hc, hf2, hr]

/-- A successful lookup leaves the content in the cache under its hash
(and the hash was necessarily well-formed). -/
theorem dir_ok_cached (fs : String → Option String) (st : DirState)
    (hash content : String)
    (h : (getOperationFromHash fs st hash).result = .ok content) :
    validHash hash = true ∧
      (getOperationFromHash fs st hash).state.cache.lookup hash = some content := by
  by_cases hv : validHash hash
  · refine ⟨hv, ?_⟩
    by_cases ht : jsTruthyOpt (st.cache.lookup hash)
    · cases hcl : st.cache.lookup hash with
      | none => rw [hcl] at ht; simp [jsTruthyOpt] at ht
      | some s =>
        have hs : ¬s = "" := by
          rw [hcl] at ht; simpa [jsTruthyOpt] using ht
        rw [dir_cache_hit fs st hash s hv hcl hs] at h ⊢
        simp only [Except.ok.injEq] at h
        rw [hcl, h]
    · have htf : jsTruthyOpt (st.cache.lookup hash) = false := by
        simpa using ht
      by_cases hf : st.files.contains (hash ++ ".graphql")
      · cases hr : fs (hash ++ ".graphql") with
        | none => rw [dir_read_fail fs st hash hv htf hf hr] at h; simp at h
        | some c =>
          rw [dir_fresh_read fs st hash c hv htf hf hr] at h ⊢
          simp only [Except.ok.injEq] at h
          simp [h]
      · rw [dir_unknown fs st hash hv htf (by simpa using hf)] at h
        simp at h
  · rw [dir_invalid fs st hash (by simpa using hv)] at h
    simp at h

/-! ### Claims about the Directory Strategy -/

/-- C2: for every hash string that does not match the character-class
regex, the Directory Strategy lookup fails with the invalid-hash error
before forming a filename or touching the filesystem: the state is
returned unchanged and zero filesystem reads are issued, for every
filesystem and every strategy state. -/
theorem c2_invalid_hash_rejected (fs : String → Option String) (st : DirState)
    (hash : String) (h : validHash hash = false) :
    getOperationFromHash fs st hash =
      { result := .error .invalidHash, state := st, fsReads := 0 } :=
  dir_invalid fs st hash h

/-- Witness for C2 at the path-traversal style input `"../x"`. -/
theorem c2_invalid_hash_rejected_witness :
    getOperationFromHash (fun _ => some "queryA")
        { files := ["x.graphql"], cache := [] } "../x" =
      { result := .error .invalidHash,
        state := { files := ["x.graphql"], cache := [] }, fsReads := 0 } :=
  c2_invalid_hash_rejected (fun _ => some "queryA")
    { files := ["x.graphql"], cache := [] } "../x" (by decide)

/-- C3: a well-formed hash with no cache entry whose expected filename
`hash ++ ".graphql"` is absent from the snapshot fails with the
unknown-hash error and zero filesystem reads; in particular, in the
state before the first background scan completes (empty snapshot, empty
cache) every lookup of a well-formed hash fails this way. -/
theorem c3_unknown_hash_zero_reads :
    (∀ (fs : String → Option String) (st : DirState) (hash : String),
        validHash hash = true →
        st.cache.lookup hash = none →
        st.files.contains (hash ++ ".graphql") = false →
        getOperationFromHash fs st hash =
          { result := .error (.unknownHash hash), state := st, fsReads := 0 }) ∧
    (∀ (fs : String → Option String) (hash : String),
        validHash hash = true →
        getOperationFromHash fs initialDirState hash =
          { result := .error (.unknownHash hash), state := initialDirState,
            fsReads := 0 }) := by
  constructor
  · intro fs st hash hv hc hf
    exact dir_unknown fs st hash hv (by simp [hc, jsTruthyOpt]) hf
  · intro fs hash hv
    exact dir_unknown fs initialDirState hash hv rfl rfl

/-- Witness for C3: lookup of `"deadbeef"` before the first scan, over a
filesystem that does contain the file, still fails without reading. -/
theorem c3_unknown_hash_zero_reads_witness :
    getOperationFromHash (fun _ => some "queryA") initialDirState "deadbeef" =
      { result := .error (.unknownHash "deadbeef"), state := initialDirState,
        fsReads := 0 } :=
  c3_unknown_hash_zero_reads.2 (fun _ => some "queryA") "deadbeef" (by decide)

/-- The filesystem of the C7 counterexample: `h0.graphql` exists and is
an empty file. -/
def c7File : String → Option String :=
  fun f => if f == "h0.graphql" then some "" else none

/-- Directory state of the C7 counterexample: the snapshot knows
`h0.graphql`, nothing is cached yet. -/
def c7St : DirState := { files := ["h0.graphql"], cache := [] }

/-- C7 counterexample: the hash `"h0"` is successfully read from disk
(its file is empty, so the cached content is the empty string, which is
falsy); afterwards, changing the underlying file changes the result of
the next lookup, and deleting it (with a snapshot refresh) makes the
next lookup fail — so a later lookup does not return the cached content. -/
theorem c7_counterexample :
    (getOperationFromHash c7File c7St "h0").result = .ok "" ∧
    (getOperationFromHash (fun _ => some "CHANGED")
        (getOperationFromHash c7File c7St "h0").state "h0").result = .ok "CHANGED" ∧
    (getOperationFromHash (fun _ => none)
        (scanDirectory (.ok []) (getOperationFromHash c7File c7St "h0").state)
        "h0").result = .error (.unknownHash "h0") :=
  ⟨rfl, rfl, rfl⟩

/-- C7 amended: once a hash has been successfully read from disk with
NON-EMPTY content, every subsequent lookup of that hash over the
resulting cache returns that cached content with zero filesystem reads,
for every later filesystem and every later snapshot (deleting or
changing the file no longer matters).  An empty-string content is falsy
in the cache-hit test, so the empty-content case re-reads instead. -/
theorem c7_cache_authoritative (fs fs2 : String → Option String)
    (st : DirState) (files2 : List String) (hash content : String)
    (h : (getOperationFromHash fs st hash).result = .ok content)
    (hne : ¬content = "") :
    getOperationFromHash fs2
        { files := files2, cache := (getOperationFromHash fs st hash).state.cache }
        hash =
      { result := .ok content,
        state := { files := files2,
                   cache := (getOperationFromHash fs st hash).state.cache },
        fsReads := 0 } := by
  obtain ⟨hv, hc⟩ := dir_ok_cached fs st hash content h
  exact dir_cache_hit fs2 _ hash content hv hc hne

/-- Witness for C7 amended: `"k"` is read (content `"queryA"`) from a
one-file directory; after the file is deleted and the snapshot emptied,
the lookup still returns `"queryA"` from cache. -/
theorem c7_cache_authoritative_witness :
    getOperationFromHash (fun _ => none)
        { files := [],
          cache := (getOperationFromHash (fun _ => some "queryA")
              { files := ["k.graphql"], cache := [] } "k").state.cache } "k" =
      { result := .ok "queryA",
        state := { files := [],
                   cache := (getOperationFromHash (fun _ => some "queryA")
                       { files := ["k.graphql"], cache := [] } "k").state.cache },
        fsReads := 0 } :=
  c7_cache_authoritative (fun _ => some "queryA") (fun _ => none)
    { files := ["k.graphql"], cache := [] } [] "k" "queryA" rfl (by decide)

/-! ### Fixtures and shared lemmas for the resolver and orchestrator -/

/-- Options object with none of the recognized keys present. -/
def emptyOptions : PGOptions :=
  { hashFromPayload := none, persistedOperationsDirectory := .absent,
    persistedOperations := .absent, persistedOperationsGetter := .absent,
    allowUnpersistedOperation := .absent }

/-- A concrete per-directory getter behaviour for witnesses. -/
def trivialEnv : DirEnv :=
  { dirGetter := fun _ => fun h => .error (.unknownHash h) }

/-- A payload with no hash-bearing field and no query. -/
def emptyPayload : RequestPayload :=
  { extensions := none, documentId := none, id := none, query := none,
    operationName := none }

/-- A payload carrying only a Relay-style document id. -/
def payloadWithDocId : RequestPayload :=
  { extensions := none, documentId := some "abc123", id := none, query := none,
    operationName := none }

/-- More than one strategy key present forces the conflict error, with
the list of offending keys in the error. -/
theorem getterFromOptionsCore_conflict (env : DirEnv) (o : PGOptions)
    (h : 1 < (strategyKeysSpecified o).length) :
    getterFromOptionsCore env o =
      .error (.configurationConflict (strategyKeysSpecified o)) := by
  simp [getterFromOptionsCore, h]

/-! ### Claims about the resolver and the orchestrator -/

/-- C1: the orchestrator never throws.  Whatever the payload, options,
bypass flag, and ambient directory-getter behaviour, when the try-block
body throws any error (from hash extraction, strategy resolution, or
strategy invocation, including caller-supplied extractors and getters)
the function returns null, and when the body succeeds the function
returns its value — there is no third outcome. -/
theorem c1_never_throws (env : DirEnv) (p : RequestPayload) (o : PGOptions)
    (b : Bool) :
    (∀ e, persistedOperationAttempt env p o b = .error e →
        persistedOperationFromPayload env p o b = .nullV) ∧
    (∀ v, persistedOperationAttempt env p o b = .ok v →
        persistedOperationFromPayload env p o b = v) := by
  constructor
  · intro e he
    simp [persistedOperationFromPayload, he]
  · intro v hv
    simp [persistedOperationFromPayload, hv]

/-- Options whose caller-supplied extractor always throws. -/
def throwingExtractorOptions : PGOptions :=
  { emptyOptions with hashFromPayload := some (fun _ => .error (.userThrown "boom")) }

/-- Witness for C1: a throwing caller-supplied extractor is converted to
a null return. -/
theorem c1_never_throws_witness :
    persistedOperationFromPayload trivialEnv emptyPayload throwingExtractorOptions
      true = .nullV :=
  (c1_never_throws trivialEnv emptyPayload throwingExtractorOptions true).1
    (.userThrown "boom") rfl

/-- C4 counterexample: with no lookup strategy configured, strategy
resolution does NOT return a resolver function — it fails with the
misconfiguration error immediately, at resolution time. -/
theorem c4_counterexample :
    getterFromOptionsCore trivialEnv emptyOptions = .error .notConfigured := rfl

/-- C4 amended: with none of the three lookup-strategy keys present,
strategy resolution fails immediately with the misconfiguration error
(not deferred into a returned resolver); since the orchestrator resolves
the strategy per request, after hash extraction and inside its
catch-all, the failure surfaces as a per-request null result. -/
theorem c4_not_configured_immediate (env : DirEnv) (o : PGOptions)
    (hg : o.persistedOperationsGetter = .absent)
    (hm : o.persistedOperations = .absent)
    (hd : o.persistedOperationsDirectory = .absent) :
    getterFromOptionsCore env o = .error .notConfigured ∧
    (∀ (p : RequestPayload) (b : Bool) (h : String),
        effectiveHashFromPayload o p = .ok (.strV h) →
        persistedOperationFromPayload env p o b = .nullV) := by
  have hcore : getterFromOptionsCore env o = .error .notConfigured := by
    simp [getterFromOptionsCore, strategyKeysSpecified, hg, hm, hd, JSField.isPresent]
  refine ⟨hcore, ?_⟩
  intro p b h hext
  simp [persistedOperationFromPayload, persistedOperationAttempt, hext,
    getterFromOptions, hcore, Bind.bind, Except.bind]

/-- Witness for C4 amended: empty options make resolution fail at once,
and a request carrying a document id gets a null result. -/
theorem c4_not_configured_immediate_witness :
    getterFromOptionsCore trivialEnv emptyOptions = .error .notConfigured ∧
    persistedOperationFromPayload trivialEnv payloadWithDocId emptyOptions false =
      .nullV :=
  ⟨(c4_not_configured_immediate trivialEnv emptyOptions rfl rfl rfl).1,
   (c4_not_configured_immediate trivialEnv emptyOptions rfl rfl rfl).2
     payloadWithDocId false "abc123" rfl⟩

/-- C5: whenever more than one of the three lookup-strategy keys is
present on the options object, strategy resolution itself returns the
configuration-conflict error — the failure happens at resolution time,
inside `getterFromOptionsCore`, not when a getter is later invoked for a
request. -/
theorem c5_conflict_at_resolution (env : DirEnv) (o : PGOptions)
    (h : 1 < (strategyKeysSpecified o).length) :
    getterFromOptionsCore env o =
      .error (.configurationConflict (strategyKeysSpecified o)) :=
  getterFromOptionsCore_conflict env o h

/-- Options with both a static map and a caller-supplied getter. -/
def conflictingOptions : PGOptions :=
  { emptyOptions with
    persistedOperations := .val [("abc123", "queryPing")],
    persistedOperationsGetter := .val (fun _ => .ok .undefV) }

/-- Witness for C5 on a static map plus caller getter. -/
theorem c5_conflict_at_resolution_witness :
    getterFromOptionsCore trivialEnv conflictingOptions =
      .error (.configurationConflict (strategyKeysSpecified conflictingOptions)) :=
  c5_conflict_at_resolution trivialEnv conflictingOptions (by decide)

/-- C6: when hash extraction succeeds with a non-string value, the
orchestrator returns the payload query string verbatim when the bypass
is allowed and `payload.query` is a string, and otherwise throws the
no-hash-found error, which its catch-all surfaces as null. -/
theorem c6_bypass_or_no_hash (env : DirEnv) (o : PGOptions) (p : RequestPayload)
    (b : Bool) (v : JSValue)
    (hv : effectiveHashFromPayload o p = .ok v)
    (hns : v.isString = false) :
    (∀ q, b = true → p.query = some (.qstr q) →
        persistedOperationFromPayload env p o b = .strV q) ∧
    ((b = false ∨ queryIsString p.query = false) →
        persistedOperationAttempt env p o b = .error .noHashFound ∧
        persistedOperationFromPayload env p o b = .nullV) := by
  have hattempt : persistedOperationAttempt env p o b =
      (match b, p.query with
       | true, some (.qstr q) => .ok (.strV q)
       | _, _ => .error .noHashFound) := by
    cases v with
    | strV s => simp [JSValue.isString] at hns
    | nullV => simp [persistedOperationAttempt, hv, Bind.bind, Except.bind]
    | undefV => simp [persistedOperationAttempt, hv, Bind.bind, Except.bind]
  constructor
  · intro q hb hq
    subst hb
    simp [persistedOperationFromPayload, hattempt, hq]
  · intro hcase
    have herr : persistedOperationAttempt env p o b = .error .noHashFound := by
      rw [hattempt]
      rcases hcase with hb | hq
      · subst hb
        cases hpq : p.query with
        | none => rfl
        | some jq => cases jq <;> rfl
      · cases hpq : p.query with
        | none => cases b <;> rfl
        | some jq =>
          cases jq with
          | qstr s => rw [hpq] at hq; simp [queryIsString] at hq
          | qdoc => cases b <;> rfl
    exact ⟨herr, by simp [persistedOperationFromPayload, herr]⟩

/-- A payload carrying only a literal query string. -/
def bypassPayload : RequestPayload :=
  { extensions := none, documentId := none, id := none,
    query := some (.qstr "queryPing"), operationName := none }

/-- Witness for C6: no hash anywhere, bypass allowed, literal query
returned verbatim. -/
theorem c6_bypass_or_no_hash_witness :
    persistedOperationFromPayload trivialEnv bypassPayload emptyOptions true =
      .strV "queryPing" :=
  (c6_bypass_or_no_hash trivialEnv emptyOptions bypassPayload true .undefV rfl rfl).1
    "queryPing" rfl rfl

/-- Payload of the C8 counterexample: the Apollo-style hash field is
present but holds the empty string, and a Relay-style document id is
also present. -/
def c8Payload : RequestPayload :=
  { extensions := some { persistedQuery := some { sha256Hash := some "" } },
    documentId := some "xyz", id := none, query := none, operationName := none }

/-- C8 counterexample: the nested sha256Hash field is present (with the
empty string as its value), yet the default extractor does not return
it — the JavaScript or-operator treats the empty string as falsy and
falls through to documentId. -/
theorem c8_counterexample :
    shaFromPayload c8Payload = some "" ∧
    defaultHashFromPayload c8Payload = .strV "xyz" ∧
    ¬defaultHashFromPayload c8Payload = .strV "" := by
  refine ⟨rfl, rfl, ?_⟩
  decide

/-- C8 amended: the default extractor checks the Apollo-style nested
hash field first and the Relay-style documentId second, returning the
Apollo hash when it is present AND non-empty (JavaScript truthiness);
when the Apollo field is missing or the empty string, it returns
whatever the documentId field holds (its string, possibly empty, or
undefined when missing). -/
theorem c8_default_extractor (p : RequestPayload) :
    (∀ s, shaFromPayload p = some s → ¬s = "" →
        defaultHashFromPayload p = .strV s) ∧
    ((shaFromPayload p = none ∨ shaFromPayload p = some "") →
        defaultHashFromPayload p = jsOfStrOpt p.documentId) := by
  constructor
  · intro s hs hne
    simp [defaultHashFromPayload, jsOr, hs, jsOfStrOpt, JSValue.truthy, hne]
  · intro hcase
    rcases hcase with hs | hs <;>
      simp [defaultHashFromPayload, jsOr, hs, jsOfStrOpt, JSValue.truthy]

/-- Witness for C8 amended: a non-empty Apollo hash wins over the
document id. -/
theorem c8_default_extractor_witness :
    defaultHashFromPayload
        { extensions := some { persistedQuery := some { sha256Hash := some "abc123" } },
          documentId := some "xyz", id := none, query := none,
          operationName := none } = .strV "abc123" :=
  (c8_default_extractor
      { extensions := some { persistedQuery := some { sha256Hash := some "abc123" } },
        documentId := some "xyz", id := none, query := none,
        operationName := none }).1 "abc123" rfl (by decide)

/-- C9: the static-map getter is a pure table lookup that never throws:
a hash that is a key of the table yields its document, a hash that is
not yields the undefined value (a lookup failure, not an exception). -/
theorem c9_static_map_lookup (cache : List (String × String)) (hash : String) :
    (∀ d, cache.lookup hash = some d →
        persistedOperationGetterForCache cache hash = .ok (.strV d)) ∧
    (cache.lookup hash = none →
        persistedOperationGetterForCache cache hash = .ok .undefV) := by
  constructor
  · intro d hd
    simp [persistedOperationGetterForCache, hd, jsOfStrOpt]
  · intro hd
    simp [persistedOperationGetterForCache, hd, jsOfStrOpt]

/-- Witness for C9 on the one-entry table. -/
theorem c9_static_map_lookup_witness :
    persistedOperationGetterForCache [("abc123", "queryPing")] "abc123" =
      .ok (.strV "queryPing") :=
  (c9_static_map_lookup [("abc123", "queryPing")] "abc123").1 "queryPing" rfl

/-- Number of strategy keys present with a defined value. -/
def numValStrategies (o : PGOptions) : Nat :=
  (if o.persistedOperationsGetter.isVal then 1 else 0) +
    (if o.persistedOperationsDirectory.isVal then 1 else 0) +
    (if o.persistedOperations.isVal then 1 else 0)

/-- Number of strategy keys present but explicitly set to undefined. -/
def numUndefStrategies (o : PGOptions) : Nat :=
  (if o.persistedOperationsGetter.isUndef then 1 else 0) +
    (if o.persistedOperationsDirectory.isUndef then 1 else 0) +
    (if o.persistedOperations.isUndef then 1 else 0)

/-- C10: the conflict check counts keys, not defined values — one
strategy key with a defined value plus another key explicitly set to
undefined already triggers the configuration-conflict error instead of
using the one defined strategy; and the CLI option-merging hook always
puts the `persistedOperationsDirectory` key on the resulting options
object, even when no directory was given. -/
theorem c10_undefined_key_counts (env : DirEnv) (o : PGOptions)
    (dir : Option String) (allow : Option Bool) :
    ((numValStrategies o = 1 ∧ 1 ≤ numUndefStrategies o) →
        getterFromOptionsCore env o =
          .error (.configurationConflict (strategyKeysSpecified o))) ∧
    (cliLibraryOptions o dir allow).persistedOperationsDirectory.isPresent = true := by
  constructor
  · rintro ⟨h1, h2⟩
    refine getterFromOptionsCore_conflict env o ?_
    cases hg : o.persistedOperationsGetter <;>
      cases hd : o.persistedOperationsDirectory <;>
        cases hm : o.persistedOperations <;>
          simp_all [strategyKeysSpecified, numValStrategies, numUndefStrategies,
            JSField.isPresent, JSField.isVal, JSField.isUndef]
  · cases dir <;> simp [cliLibraryOptions, JSField.isPresent]

/-- Library options carrying only a static map. -/
def staticMapOptions : PGOptions :=
  { emptyOptions with persistedOperations := .val [("abc123", "queryPing")] }

/-- Witness for C10: running the CLI merging hook with no directory over
static-map library options yields an options object whose directory key
is present (as undefined), and resolution on it fails with the conflict
error. -/
theorem c10_undefined_key_counts_witness :
    getterFromOptionsCore trivialEnv (cliLibraryOptions staticMapOptions none none) =
      .error (.configurationConflict
        (strategyKeysSpecified (cliLibraryOptions staticMapOptions none none))) ∧
    (cliLibraryOptions staticMapOptions none none).persistedOperationsDirectory.isPresent
      = true :=
  ⟨(c10_undefined_key_counts trivialEnv (cliLibraryOptions staticMapOptions none none)
      none none).1 (by decide),
   (c10_undefined_key_counts trivialEnv staticMapOptions none none).2⟩

end PersistedOperations
